import Mathlib

/-!
Shallow embedding of the core business logic of the
AI-Powered-Project-Management-Application backend (Flask + PostgreSQL),
together with theorems settling the specification claims about it.

Each definition mirrors one piece of the Python source:
* `normalizeTask`        — `app.py` `get_organization_projects`, task loop (lines 358-377)
* timeline arithmetic    — `app.py` `generate_project_report` (lines 1084-1134)
* `reportStatus`         — `app.py` `generate_project_report` (lines 1116-1129)
* `completionProjection` — `app.py` `generate_project_report` (lines 1241-1257)
* task counting          — `app.py` `generate_project_report` (lines 1039-1078)
* `deleteOrganization`   — `app.py` `delete_organization` (lines 218-277)
* user-account cascade   — `routes/user_routes.py` `delete_user_account_route`,
                           with `utils/db.py` `execute_query` per-call commit semantics
* `classifyComplexity`   — `utils/ai_service.py` `generate_roadmap` (lines 288-321)
* `updateTask`           — `app.py` `update_task` (lines 562-623)
* read handlers          — `app.py` `get_organization_projects`, `get_project`, `get_tasks`
-/

namespace PMApp

/-! ## Task normalization (`get_organization_projects`, app.py lines 358-377)

A task row is a Python dict; `status`/`completed` may be absent, which we model
with `Option`.  The Python loop mutates the dict in place; we model it as a
function from the old dict to the new one. -/

structure NTask where
  status : Option String
  completed : Option Bool
  deriving DecidableEq, Repr

/-- Embedding of the per-task normalization loop body in
`get_organization_projects` (app.py lines 362-375):
if `status` is present it forces `completed := True` when `status == 'completed'`
and sets `completed := False` only when the `completed` key is absent;
if `status` is absent it derives it from `completed`. -/
def normalizeTask (t : NTask) : NTask :=
  match t.status with
  | some s =>
      if s = "completed" then { t with completed := some true }
      else
        match t.completed with
        | none => { t with completed := some false }
        | some _ => t
  | none =>
      match t.completed with
      | some true => { t with status := some "completed" }
      | _ => { status := some "pending", completed := some false }

/-! ## Timeline arithmetic (`generate_project_report`, app.py lines 1084-1134)

Python datetimes are modelled as integer timestamps in seconds;
`timedelta.days` is floor division of the signed difference by 86400
(Python floors toward negative infinity, matching `Int.fdiv`). -/

def secondsPerDay : Int := 86400

/-- `(b - a).days` for Python datetimes `a`, `b` (seconds since an epoch). -/
def pyDays (a b : Int) : Int := (b - a).fdiv secondsPerDay

structure TimelineMetrics where
  daysElapsed : Int
  daysRemaining : Int
  expectedProgress : ℚ
  deriving DecidableEq, Repr

/-- Embedding of the timeline block of `generate_project_report`
(app.py lines 1108-1113): `days_elapsed = max(0, (now - created).days)`,
`days_remaining = max(0, (deadline - now).days)`,
`total_duration = max(1, (deadline - created).days)`,
`expected_progress = days_elapsed / total_duration * 100`. -/
def timelineMetrics (created deadline now : Int) : TimelineMetrics :=
  let daysElapsed := max 0 (pyDays created now)
  let daysRemaining := max 0 (pyDays now deadline)
  let totalDuration := max 1 (pyDays created deadline)
  { daysElapsed := daysElapsed
    daysRemaining := daysRemaining
    expectedProgress := (daysElapsed : ℚ) / (totalDuration : ℚ) * 100 }

/-- The expected-progress formula as the specification claim words it:
`days_elapsed / max(1, days_elapsed + days_remaining) * 100`.
This is the spec-side definition used to compare against the code. -/
def claimExpectedProgress (created deadline now : Int) : ℚ :=
  let daysElapsed := max 0 (pyDays created now)
  let daysRemaining := max 0 (pyDays now deadline)
  (daysElapsed : ℚ) / ((max 1 (daysElapsed + daysRemaining) : Int) : ℚ) * 100

/-- Embedding of the status classification of `generate_project_report`
(app.py lines 1116-1129).  `project_status` starts at `"On Track"`; when the
deadline has not passed (`days_remaining > 0`) it becomes `"Behind Schedule"`
or `"Ahead of Schedule"` on a ±10-point divergence from expected progress;
once the deadline has passed it becomes `"Overdue"` or `"Completed"`. -/
def reportStatus (progress expected : ℚ) (daysRemaining : Int) : String :=
  if daysRemaining > 0 then
    if progress < expected - 10 then "Behind Schedule"
    else if progress > expected + 10 then "Ahead of Schedule"
    else "On Track"
  else
    if progress < 100 then "Overdue" else "Completed"

/-- The completion projection verdict printed by the report
(app.py lines 1253-1257). -/
inductive CompletionReport where
  | beyond (n : Int)
  | early (n : Nat)
  deriving DecidableEq, Repr

/-- Embedding of the completion projection of `generate_project_report`
(app.py lines 1241-1257).  The outer guard requires
`expected_progress > 0 and progress_percentage > 0`; the inner guard requires
`days_remaining > 0 and progress_percentage > 0`.  Then
`total_estimated_days = days_elapsed * (100 / progress)` and
`additional_days_needed = int(max(0, total_estimated_days - days_elapsed - days_remaining))`
(`int` of a nonnegative float is its floor); the report says
`beyond additional_days_needed` when it is positive and otherwise
`early abs(additional_days_needed)`. -/
def completionProjection (daysElapsed daysRemaining : Int) (progress expected : ℚ) :
    Option CompletionReport :=
  if expected > 0 ∧ progress > 0 then
    if daysRemaining > 0 ∧ progress > 0 then
      let totalEstimatedDays : ℚ := (daysElapsed : ℚ) * (100 / progress)
      let additionalDaysNeeded : Int :=
        ⌊max 0 (totalEstimatedDays - (daysElapsed : ℚ) - (daysRemaining : ℚ))⌋
      some (if additionalDaysNeeded > 0 then .beyond additionalDaysNeeded
            else .early additionalDaysNeeded.natAbs)
    else none
  else none

/-- The early-days count as the specification claim reads it: the number of
days the projected completion lies ahead of the deadline,
`⌊days_elapsed + days_remaining - total_estimated_days⌋`. -/
def claimEarlyDays (daysElapsed daysRemaining : Int) (progress : ℚ) : Int :=
  ⌊(daysElapsed : ℚ) + (daysRemaining : ℚ) - (daysElapsed : ℚ) * (100 / progress)⌋

/-! ## Report task counting (`generate_project_report`, app.py lines 1039-1078)

Database/checklist tasks carry optional `status` and `completed` fields and are
modelled by `NTask` again; localStorage override entries only contribute their
`completed` truthiness (`task.get('completed')`). -/

structure LTask where
  completed : Option Bool
  deriving DecidableEq, Repr

structure TaskCounts where
  total : Nat
  completed : Nat
  inProgress : Nat
  todo : Nat
  deriving DecidableEq, Repr

/-- One iteration of the else-branch counting loop of
`generate_project_report` (app.py lines 1056-1073): status drives the bucket
when present, else the `completed` flag, else todo. -/
def countStep (c : TaskCounts) (t : NTask) : TaskCounts :=
  match t.status with
  | some s =>
      if s = "completed" then { c with completed := c.completed + 1 }
      else if s = "in_progress" then { c with inProgress := c.inProgress + 1 }
      else { c with todo := c.todo + 1 }
  | none =>
      match t.completed with
      | some b =>
          if b then { c with completed := c.completed + 1 }
          else { c with todo := c.todo + 1 }
      | none => { c with todo := c.todo + 1 }

/-- The else branch of the task-statistics block: `total_tasks = len(all_tasks)`
stays from line 1039 and the loop classifies every task. -/
def classifyCounts (ts : List NTask) : TaskCounts :=
  ts.foldl countStep { total := ts.length, completed := 0, inProgress := 0, todo := 0 }

/-- `sum(1 for task in local_tasks if task.get('completed'))` (app.py line 1050). -/
def localCompletedCount (l : List LTask) : Nat :=
  (l.filter (fun t => t.completed == some true)).length

/-- Embedding of the task-statistics block of `generate_project_report`
(app.py lines 1039-1073): when the localStorage override list is present and
non-empty it alone determines the counts (`in_progress` forced to 0);
otherwise each task of the merged database+checklist list is classified by
`countStep`. -/
def taskCounts (localTasks : Option (List LTask)) (allTasks : List NTask) : TaskCounts :=
  match localTasks with
  | some l =>
      if l.length > 0 then
        { total := l.length
          completed := localCompletedCount l
          inProgress := 0
          todo := l.length - localCompletedCount l }
      else classifyCounts allTasks
  | none => classifyCounts allTasks

/-- `progress_percentage` (app.py lines 1076-1078). -/
def progressPercentage (c : TaskCounts) : ℚ :=
  if c.total > 0 then (c.completed : ℚ) / (c.total : ℚ) * 100 else 0

/-- Spec-side per-task classification: completed when `status == "completed"`
or (no status and `completed` truthy); in-progress when
`status == "in_progress"`; todo otherwise. -/
def isCompletedTask (t : NTask) : Bool :=
  match t.status with
  | some s => s = "completed"
  | none => t.completed == some true

def isInProgressTask (t : NTask) : Bool :=
  match t.status with
  | some s => ¬s = "completed" ∧ s = "in_progress"
  | none => false

def isTodoTask (t : NTask) : Bool :=
  ¬isCompletedTask t ∧ ¬isInProgressTask t

/-! ## Complexity classifier (`generate_roadmap`, ai_service.py lines 288-321)

Python membership `word.lower() in combined_text` is substring containment;
`String.splitOn` yields more than one piece exactly when the (non-empty)
pattern occurs. -/

def highKeywords : List String :=
  ["complex", "advanced", "sophisticated", "extensive", "comprehensive", "enterprise",
   "microservices", "distributed", "real-time", "AI", "ML", "machine learning",
   "blockchain", "scalable", "high-performance", "multi-tenant", "big data"]

def mediumKeywords : List String :=
  ["moderate", "standard", "typical", "conventional", "regular", "normal",
   "API", "integration", "dashboard", "authentication", "authorization"]

def lowKeywords : List String :=
  ["simple", "basic", "minimal", "straightforward", "easy", "small", "prototype",
   "MVP", "proof of concept", "PoC", "single-page", "static"]

/-- Python `pat in s`: contiguous-substring containment, computed on the
character lists. -/
def containsSub (s pat : String) : Bool :=
  decide (pat.toList <:+: s.toList)

/-- Python `str.lower()` on the character list (all texts involved are ASCII). -/
def lowerStr (s : String) : String :=
  ⟨s.toList.map Char.toLower⟩

/-- `sum(1 for word in kws if word.lower() in text)` (ai_service.py lines 305-307). -/
def keywordCount (text : String) (kws : List String) : Nat :=
  (kws.filter (fun w => containsSub text (lowerStr w))).length

/-- `(description + " " + problem_statement).lower()` (ai_service.py line 302). -/
def combinedText (description problem : String) : String :=
  lowerStr (description ++ " " ++ problem)

/-- Embedding of the complexity decision of `generate_roadmap`
(ai_service.py lines 309-321): `"high"` only when the high-keyword count
exceeds the SUM of the medium and low counts, `"low"` only when the
low-keyword count exceeds the sum of the high and medium counts,
`"medium"` otherwise. -/
def classifyComplexity (description problem : String) : String :=
  let t := combinedText description problem
  let hi := keywordCount t highKeywords
  let med := keywordCount t mediumKeywords
  let lo := keywordCount t lowKeywords
  if hi > med + lo then "high"
  else if lo > hi + med then "low"
  else "medium"

/-! ## Task update (`update_task`, app.py lines 562-623)

The handler reads `data['title']` unconditionally; when the key is absent
Python raises `KeyError`, which no local handler catches — Flask's
`errorhandler(500)` (app.py lines 72-81) turns it into a generic
internal-server-error response.  A missing-field validation response
(`jsonify({'error': ...}), 400`, the shape `create_task` uses at app.py
lines 433-436) is a different outcome.  Optional fields are added to the
`SET` clause only when present in the payload; `updated_at` is always
refreshed. -/

structure TaskRecord where
  title : String
  description : String
  status : String
  priority : String
  assignedTo : Option Int
  deadline : Option String
  phaseName : String
  phaseOrder : Int
  taskOrder : Int
  updatedAt : Int
  deriving DecidableEq, Repr

structure TaskUpdatePayload where
  title : Option String
  description : Option String
  status : Option String
  priority : Option String
  assignedTo : Option (Option Int)
  deadline : Option (Option String)
  phaseName : Option String
  phaseOrder : Option Int
  taskOrder : Option Int
  deriving DecidableEq, Repr

inductive UpdateResponse where
  | ok (t : TaskRecord)
  | validationError (msg : String)
  | internalError (msg : String)
  deriving DecidableEq, Repr

/-- The 400 response `create_task` returns for a missing title
(app.py lines 433-436) — the missing-field validation outcome the
claim says `update_task` produces. -/
def missingTitleValidationResponse : UpdateResponse :=
  .validationError "Task title is required"

/-- Embedding of `update_task` (app.py lines 562-623) as its net effect on the
stored row: absent `title` raises `KeyError` (handled only by the global 500
handler); otherwise exactly `title`, `updated_at` and the payload-present
fields are overwritten. -/
def updateTask (data : TaskUpdatePayload) (t : TaskRecord) (now : Int) : UpdateResponse :=
  match data.title with
  | none => .internalError "KeyError: 'title'"
  | some ti =>
      .ok { title := ti
            updatedAt := now
            description := data.description.getD t.description
            status := data.status.getD t.status
            priority := data.priority.getD t.priority
            assignedTo := data.assignedTo.getD t.assignedTo
            deadline := data.deadline.getD t.deadline
            phaseName := data.phaseName.getD t.phaseName
            phaseOrder := data.phaseOrder.getD t.phaseOrder
            taskOrder := data.taskOrder.getD t.taskOrder }

/-! ## Relational state and cascading deletes

Rows keep only the fields the delete cascades test or mutate.  Every SQL
`DELETE ... WHERE c = v` is a list filter; `execute_query` (db.py lines 20-36)
opens a fresh connection, executes the single statement, commits and closes,
so each statement's effect is durable on its own. -/

structure ProjectRow where
  id : Int
  orgId : Int
  deriving DecidableEq, Repr

structure TaskRow where
  id : Int
  projectId : Int
  assignedTo : Option Int
  deriving DecidableEq, Repr

structure OrgMemberRow where
  orgId : Int
  userId : Int
  role : String
  deriving DecidableEq, Repr

structure ProjMemberRow where
  projectId : Int
  userId : Int
  role : String
  deriving DecidableEq, Repr

structure DB where
  users : List Int
  orgs : List Int
  projects : List ProjectRow
  tasks : List TaskRow
  orgMembers : List OrgMemberRow
  projMembers : List ProjMemberRow
  deriving DecidableEq, Repr

/-- The admin check of `delete_organization` (app.py lines 224-230). -/
def isOrgAdmin (db : DB) (orgId userId : Int) : Bool :=
  db.orgMembers.any (fun m => m.orgId == orgId && m.userId == userId && m.role == "admin")

/-- `DELETE FROM tasks WHERE project_id = p`. -/
def deleteTasksOfProject (db : DB) (p : Int) : DB :=
  { db with tasks := db.tasks.filter (fun t => t.projectId != p) }

/-- `DELETE FROM project_members WHERE project_id = p`. -/
def deleteProjMembersOfProject (db : DB) (p : Int) : DB :=
  { db with projMembers := db.projMembers.filter (fun m => m.projectId != p) }

/-- `DELETE FROM projects WHERE id = p`. -/
def deleteProjectRow (db : DB) (p : Int) : DB :=
  { db with projects := db.projects.filter (fun pr => pr.id != p) }

/-- The per-project loop body of `delete_organization` (app.py lines 242-261):
tasks, then project memberships, then the project row. -/
def deleteProjectCascade (db : DB) (p : Int) : DB :=
  deleteProjectRow (deleteProjMembersOfProject (deleteTasksOfProject db p) p) p

/-- `DELETE FROM organization_members WHERE organization_id = o`. -/
def deleteOrgMembersOfOrg (db : DB) (o : Int) : DB :=
  { db with orgMembers := db.orgMembers.filter (fun m => m.orgId != o) }

/-- `DELETE FROM organizations WHERE id = o`. -/
def deleteOrgRow (db : DB) (o : Int) : DB :=
  { db with orgs := db.orgs.filter (fun x => x != o) }

/-- `SELECT id FROM projects WHERE organization_id = o` (app.py lines 236-239). -/
def orgProjectIds (db : DB) (o : Int) : List Int :=
  (db.projects.filter (fun p => p.orgId == o)).map (fun p => p.id)

/-- Embedding of `delete_organization` (app.py lines 218-277): `none` models
the 403 refusal; otherwise the fetched project list is cascaded project by
project, then organization memberships, then the organization row. -/
def deleteOrganization (db : DB) (orgId userId : Int) : Option DB :=
  if isOrgAdmin db orgId userId then
    let projIds := orgProjectIds db orgId
    let db1 := projIds.foldl deleteProjectCascade db
    some (deleteOrgRow (deleteOrgMembersOfOrg db1 orgId) orgId)
  else none

/-- The DELETE statements of `delete_organization`, in program order. -/
inductive DStmt where
  | delTasks (p : Int)
  | delProjMembers (p : Int)
  | delProject (p : Int)
  | delOrgMembers (o : Int)
  | delOrg (o : Int)
  deriving DecidableEq, Repr

/-- The statement sequence `delete_organization` issues (app.py lines 242-275). -/
def deleteOrgTrace (db : DB) (orgId : Int) : List DStmt :=
  (orgProjectIds db orgId).flatMap
    (fun p => [.delTasks p, .delProjMembers p, .delProject p]) ++
  [.delOrgMembers orgId, .delOrg orgId]

/-- A concrete database: organization 5 with admin user 7, one project (id 1)
with one task (id 10) and one project membership. -/
def dbC6 : DB :=
  { users := [7]
    orgs := [5]
    projects := [⟨1, 5⟩]
    tasks := [⟨10, 1, none⟩]
    orgMembers := [⟨5, 7, "admin"⟩]
    projMembers := [⟨1, 7, "manager"⟩] }

/-! ## Account deletion cascade (`delete_user_account_route`, user_routes.py lines 64-195)

Every statement below is issued through `execute_query` (db.py lines 20-36),
which opens its own connection and commits before returning: after a failure
between two statements, exactly the statements already issued remain
committed.  `runPrefix` is therefore the committed state visible after a
failure right after the k-th statement. -/

inductive UStmt where
  | nullAssigned (u : Int)
  | delTasks (p : Int)
  | delProjMembers (p : Int)
  | delProject (p : Int)
  | delOrgMembers (o : Int)
  | delOrg (o : Int)
  | delProjMembersOfUser (u : Int)
  | delOrgMembersOfUser (u : Int)
  | delUser (u : Int)
  deriving DecidableEq, Repr

/-- Effect of one committed statement (each `execute_query` call commits on
its own connection). -/
def applyUStmt (db : DB) : UStmt → DB
  | .nullAssigned u =>
      { db with tasks :=
          db.tasks.map fun t =>
            if t.assignedTo == some u then { t with assignedTo := none } else t }
  | .delTasks p => deleteTasksOfProject db p
  | .delProjMembers p => deleteProjMembersOfProject db p
  | .delProject p => deleteProjectRow db p
  | .delOrgMembers o => deleteOrgMembersOfOrg db o
  | .delOrg o => deleteOrgRow db o
  | .delProjMembersOfUser u =>
      { db with projMembers := db.projMembers.filter (fun m => m.userId != u) }
  | .delOrgMembersOfUser u =>
      { db with orgMembers := db.orgMembers.filter (fun m => m.userId != u) }
  | .delUser u => { db with users := db.users.filter (fun x => x != u) }

def runStmts (stmts : List UStmt) (db : DB) : DB :=
  stmts.foldl applyUStmt db

/-- Projects whose only `'manager'` membership row belongs to `u`
(user_routes.py lines 79-88: `HAVING COUNT(pm.user_id) = 1 AND
MAX(CASE WHEN pm.user_id = u THEN 1 ELSE 0 END) = 1`). -/
def soloManagedProjects (db : DB) (u : Int) : List Int :=
  (db.projects.filter (fun p =>
    let mgrs := db.projMembers.filter (fun m => m.projectId == p.id && m.role == "manager")
    mgrs.length == 1 && mgrs.all (fun m => m.userId == u))).map (fun p => p.id)

/-- Organizations whose only `'admin'` membership row belongs to `u`
(user_routes.py lines 117-126). -/
def soloAdminOrgs (db : DB) (u : Int) : List Int :=
  db.orgs.filter (fun o =>
    let admins := db.orgMembers.filter (fun m => m.orgId == o && m.role == "admin")
    admins.length == 1 && admins.all (fun m => m.userId == u))

/-- Statements of the per-organization cascade (user_routes.py lines 129-172);
the organization's project list is read from the state current at that point. -/
def orgCascadeStmts (db : DB) (o : Int) : List UStmt :=
  (orgProjectIds db o).flatMap
    (fun p => [.delTasks p, .delProjMembers p, .delProject p]) ++
  [.delOrgMembers o, .delOrg o]

/-- The loop over solo-admin organizations, threading the committed state. -/
def orgLoop (db : DB) : List Int → List UStmt
  | [] => []
  | o :: rest =>
      let s := orgCascadeStmts db o
      s ++ orgLoop (runStmts s db) rest

/-- The full statement sequence `delete_user_account_route` issues for a given
initial state (user_routes.py lines 64-193): null out assignments, cascade
solo-managed projects, cascade solo-admin organizations, then remove the
user's remaining memberships and the user row. -/
def deleteUserTrace (db : DB) (u : Int) : List UStmt :=
  let db1 := applyUStmt db (.nullAssigned u)
  let solos := soloManagedProjects db1 u
  let s1 := solos.flatMap (fun p => [UStmt.delTasks p, UStmt.delProjMembers p, UStmt.delProject p])
  let db2 := runStmts s1 db1
  let s2 := orgLoop db2 (soloAdminOrgs db2 u)
  .nullAssigned u :: (s1 ++ s2 ++ [.delProjMembersOfUser u, .delOrgMembersOfUser u, .delUser u])

/-- The committed state after the first `k` statements (a failure at statement
`k+1` leaves exactly this state, since every statement committed in its own
transaction). -/
def runPrefix (stmts : List UStmt) (k : Nat) (db : DB) : DB :=
  runStmts (stmts.take k) db

/-- A concrete database for the account-deletion scenario: user 7 solely
manages project 1 (organization 5), which has one task. -/
def dbC7 : DB :=
  { users := [7]
    orgs := []
    projects := [⟨1, 5⟩]
    tasks := [⟨10, 1, none⟩]
    orgMembers := []
    projMembers := [⟨1, 7, "manager"⟩] }

/-! ## Read handlers (`get_organization_projects`, `get_project`, `get_tasks`)

All three handlers run behind `token_required` only; their bodies never read
`request.user` and their queries touch only the `projects`, `tasks` and
`organizations` tables.  They are modelled over a richer read state that also
carries both membership tables, so that independence from the caller and from
the membership rows is expressible. -/

structure PTaskRow where
  id : Int
  projectId : Int
  title : String
  status : Option String
  completed : Option Bool
  phaseOrder : Int
  taskOrder : Int
  createdAt : Int
  deriving DecidableEq, Repr

structure ProjectFullRow where
  id : Int
  orgId : Int
  title : String
  createdAt : Int
  deriving DecidableEq, Repr

structure ReadDB where
  orgs : List (Int × String)
  projects : List ProjectFullRow
  tasks : List PTaskRow
  orgMembers : List OrgMemberRow
  projMembers : List ProjMemberRow
  deriving DecidableEq, Repr

/-- Insertion of an element into a list sorted by the boolean `le`. -/
def insertSorted {α : Type} (le : α → α → Bool) (a : α) : List α → List α
  | [] => [a]
  | b :: bs => if le a b then a :: b :: bs else b :: insertSorted le a bs

/-- Insertion sort by the boolean `le` (models SQL `ORDER BY`). -/
def sortByLe {α : Type} (le : α → α → Bool) : List α → List α
  | [] => []
  | a :: as => insertSorted le a (sortByLe le as)

/-- `ORDER BY phase_order, task_order` (app.py line 353). -/
def taskLe (a b : PTaskRow) : Bool :=
  a.phaseOrder < b.phaseOrder || (a.phaseOrder == b.phaseOrder && a.taskOrder ≤ b.taskOrder)

/-- `ORDER BY phase_order ASC, task_order ASC, created_at ASC` (app.py line 507). -/
def taskLe3 (a b : PTaskRow) : Bool :=
  a.phaseOrder < b.phaseOrder ||
  (a.phaseOrder == b.phaseOrder &&
    (a.taskOrder < b.taskOrder ||
     (a.taskOrder == b.taskOrder && a.createdAt ≤ b.createdAt)))

/-- `ORDER BY p.created_at DESC` (app.py line 340). -/
def projCreatedDesc (a b : ProjectFullRow) : Bool :=
  b.createdAt ≤ a.createdAt

/-- Normalization of one returned task row: the loop at app.py lines 359-375
rewrites only the `status`/`completed` entries of the row dict, via
`normalizeTask`. -/
def normalizePTask (t : PTaskRow) : PTaskRow :=
  let n := normalizeTask ⟨t.status, t.completed⟩
  { t with status := n.status, completed := n.completed }

structure ProjectWithTasks where
  project : ProjectFullRow
  tasks : Option (List PTaskRow)
  deriving DecidableEq, Repr

/-- Embedding of `get_organization_projects` (app.py lines 327-382): the
organization's projects ordered by creation time descending; when
`include_tasks` is set, each project carries its ordered, normalized task
list.  The authenticated caller `userId` is never consulted. -/
def getOrganizationProjects (db : ReadDB) (organizationId : Int) (includeTasks : Bool)
    (_userId : Int) : List ProjectWithTasks :=
  let projects := sortByLe projCreatedDesc
    (db.projects.filter (fun p => p.orgId == organizationId))
  projects.map fun p =>
    { project := p
      tasks :=
        if includeTasks then
          some ((sortByLe taskLe (db.tasks.filter (fun t => t.projectId == p.id))).map
            normalizePTask)
        else none }

/-- Embedding of `get_project` (app.py lines 384-408): the project row joined
with its organization's name; `none` models the 404.  The authenticated
caller `userId` is never consulted. -/
def getProject (db : ReadDB) (projectId : Int) (_userId : Int) :
    Option (ProjectFullRow × String) :=
  match (db.projects.filter (fun p => p.id == projectId)).head? with
  | none => none
  | some p =>
      match (db.orgs.filter (fun o => o.1 == p.orgId)).head? with
      | none => none
      | some o => some (p, o.2)

/-- Embedding of `get_tasks` (app.py lines 485-520): the project's tasks
ordered by phase, order and creation time.  The authenticated caller `userId`
is never consulted. -/
def getTasks (db : ReadDB) (projectId : Int) (_userId : Int) : List PTaskRow :=
  sortByLe taskLe3 (db.tasks.filter (fun t => t.projectId == projectId))

/-! ## Theorems settling the claims -/

/-! ## Theorems for claims C1-C4 -/

/-- C1 counterexample: a stored task with `status = "todo"` and
`completed = True` passes through the normalization step of
`get_organization_projects` unchanged, so the returned task still has
`status ≠ "completed"` while `completed == true` — the claimed
status/completed equivalence fails on it. -/
theorem normalizeTask_stored_true_inconsistent :
    normalizeTask ⟨some "todo", some true⟩ = ⟨some "todo", some true⟩ ∧
    ¬(((normalizeTask ⟨some "todo", some true⟩).status = some "completed") ↔
      ((normalizeTask ⟨some "todo", some true⟩).completed = some true)) := by
  decide

/-- C1 (amended): after the normalization step of `get_organization_projects`,
`status == "completed"` always implies `completed == true`; the full
equivalence `status == "completed" ⇔ completed == true` holds for every task
except one stored with a non-completed status together with `completed` already
`true`, which normalization leaves unchanged (still inconsistent). -/
theorem normalizeTask_consistency (t : NTask) :
    ((normalizeTask t).status = some "completed" → (normalizeTask t).completed = some true) ∧
    ((t.completed = some true → t.status = none ∨ t.status = some "completed") →
      (((normalizeTask t).status = some "completed") ↔
        ((normalizeTask t).completed = some true))) := by
  obtain ⟨s, c⟩ := t
  rcases s with _ | v
  · rcases c with _ | b
    · simp [normalizeTask]
    · cases b <;> simp [normalizeTask]
  · by_cases hv : v = "completed"
    · subst hv
      rcases c with _ | b <;> simp [normalizeTask]
    · rcases c with _ | b
      · simp [normalizeTask, hv]
      · cases b
        · simp [normalizeTask, hv]
        · refine ⟨?_, ?_⟩
          · simp [normalizeTask, hv]
          · intro h
            rcases h rfl with h' | h' <;> simp_all

/-- C1 witness: applying the consistency theorem to the concrete task
`{status: "todo", completed: False}`, whose stored fields satisfy the
side condition, yields the status/completed equivalence. -/
theorem normalizeTask_consistency_witness :
    ((normalizeTask ⟨some "todo", some false⟩).status = some "completed") ↔
      ((normalizeTask ⟨some "todo", some false⟩).completed = some true) :=
  (normalizeTask_consistency ⟨some "todo", some false⟩).2 (by decide)

/-- C2 counterexample: with `created` at epoch 0, `deadline` 10 days later
(864000 s) and `now` 20 days after creation (1728000 s, i.e. past the
deadline), the code computes `expected_progress = 20 / max(1, 10) * 100 = 200`,
whereas the claimed formula `days_elapsed / max(1, days_elapsed +
days_remaining) * 100` gives `20 / 20 * 100 = 100`. -/
theorem expectedProgress_denominator_counterexample :
    (timelineMetrics 0 864000 1728000).expectedProgress = 200 ∧
    claimExpectedProgress 0 864000 1728000 = 100 := by
  constructor
  · have h1 : max 0 (pyDays 0 1728000) = 20 := by decide
    have h2 : max 1 (pyDays 0 864000) = 10 := by decide
    simp only [timelineMetrics, h1, h2]
    norm_num
  · have h1 : max 0 (pyDays 0 1728000) = 20 := by decide
    have h2 : max 0 (pyDays 1728000 864000) = 0 := by decide
    simp only [claimExpectedProgress, h1, h2]
    norm_num

/-- C2 (amended): for every parseable creation date, deadline and current time,
the report analytics compute `days_elapsed = max(0, (now - created).days)` and
`days_remaining = max(0, (deadline - now).days)` as claimed, but the
denominator of `expected_progress` is the clamped planned duration
`max(1, (deadline - created).days)`, not `max(1, days_elapsed +
days_remaining)`; so `expected_progress = days_elapsed /
max(1, (deadline - created).days) * 100` (which exceeds 100 once `now` runs
past the deadline by more than the planned duration). -/
theorem timelineMetrics_formulas (created deadline now : Int) :
    (timelineMetrics created deadline now).daysElapsed =
      max 0 ((now - created).fdiv 86400) ∧
    (timelineMetrics created deadline now).daysRemaining =
      max 0 ((deadline - now).fdiv 86400) ∧
    (timelineMetrics created deadline now).expectedProgress =
      ((max 0 ((now - created).fdiv 86400) : Int) : ℚ) /
        ((max 1 ((deadline - created).fdiv 86400) : Int) : ℚ) * 100 :=
  ⟨rfl, rfl, rfl⟩

/-- C3: while the deadline has not passed (`days_remaining > 0`) the report
status is `"Behind Schedule"` when progress is more than 10 points below
expected, `"Ahead of Schedule"` when more than 10 points above, and
`"On Track"` otherwise; once the deadline has passed it is `"Completed"` at
100% progress and `"Overdue"` below.  The concrete conjuncts encode created
2024-01-01 00:00:00 (epoch offset 0), deadline 2024-01-31 (offset 2592000 s)
and now 2024-01-16 00:00:00 (offset 1296000 s): expected progress is 50 and
progress 30/70/50 classify as claimed. -/
theorem reportStatus_classification (p e : ℚ) (dr : Int) :
    (0 < dr →
      ((p < e - 10 → reportStatus p e dr = "Behind Schedule") ∧
       (e + 10 < p → reportStatus p e dr = "Ahead of Schedule") ∧
       (e - 10 ≤ p → p ≤ e + 10 → reportStatus p e dr = "On Track"))) ∧
    (dr ≤ 0 →
      ((p = 100 → reportStatus p e dr = "Completed") ∧
       (p < 100 → reportStatus p e dr = "Overdue"))) ∧
    (timelineMetrics 0 2592000 1296000).expectedProgress = 50 ∧
    reportStatus 30 50 15 = "Behind Schedule" ∧
    reportStatus 70 50 15 = "Ahead of Schedule" ∧
    reportStatus 50 50 15 = "On Track" := by
  refine ⟨fun hdr => ⟨?_, ?_, ?_⟩, fun hdr => ⟨?_, ?_⟩, ?_, ?_, ?_, ?_⟩
  · intro hp
    simp [reportStatus, hdr, hp]
  · intro hp
    have h1 : ¬(p < e - 10) := by linarith
    simp [reportStatus, hdr, h1, hp]
  · intro h1 h2
    have h1' : ¬(p < e - 10) := by linarith
    have h2' : ¬(e + 10 < p) := by linarith
    simp [reportStatus, hdr, h1', h2']
  · intro hp
    have h0 : ¬(0 < dr) := by omega
    have h1 : ¬(p < 100) := by rw [hp]; norm_num
    simp [reportStatus, h0, h1]
  · intro hp
    have h0 : ¬(0 < dr) := by omega
    simp [reportStatus, h0, hp]
  · have h1 : max 0 (pyDays 0 1296000) = 15 := by decide
    have h2 : max 1 (pyDays 0 2592000) = 30 := by decide
    simp only [timelineMetrics, h1, h2]
    norm_num
  · norm_num [reportStatus]
  · norm_num [reportStatus]
  · norm_num [reportStatus]

/-- C3 witness: the classification theorem applied at progress 30, expected 50,
15 days remaining, discharging `0 < 15` and `30 < 50 - 10`. -/
theorem reportStatus_classification_witness :
    reportStatus 30 50 15 = "Behind Schedule" :=
  (((reportStatus_classification 30 50 15).1 (by decide)).1) (by norm_num)

/-- C4 counterexample: with 10 days elapsed, 10 days remaining and progress
80% (expected 50%), the projected total duration is 12.5 days, i.e. the
project is 7 days (floored) ahead of the deadline; yet the code reports
"0 days early", because `additional_days = int(max(0, ...))` is clamped to 0
before `abs` is taken — the early-case N is not the number of days ahead. -/
theorem completionProjection_early_counterexample :
    completionProjection 10 10 80 50 = some (.early 0) ∧
    claimEarlyDays 10 10 80 = 7 ∧ (0 : Nat) ≠ 7 := by
  refine ⟨?_, ?_, by decide⟩
  · norm_num [completionProjection, max_def]
  · norm_num [claimEarlyDays]

/-- C4 (amended): whenever `days_remaining > 0`, `progress > 0` and also
`expected_progress > 0` (the code's outer guard), the projection computes
`additional_days = ⌊max(0, days_elapsed * (100/progress) - days_elapsed -
days_remaining)⌋` and reports "N additional days beyond deadline" with
`N = additional_days` when it is positive, and otherwise reports "N days
early" with N always equal to 0 (the clamping at 0 erases the actual
number of days ahead of the deadline). -/
theorem completionProjection_report (elapsed remaining : Int) (p e : ℚ)
    (he : 0 < e) (hp : 0 < p) (hr : 0 < remaining) :
    completionProjection elapsed remaining p e =
      some (if 0 < ⌊max 0 ((elapsed : ℚ) * (100 / p) - (elapsed : ℚ) - (remaining : ℚ))⌋
            then .beyond ⌊max 0 ((elapsed : ℚ) * (100 / p) - (elapsed : ℚ) - (remaining : ℚ))⌋
            else .early 0) := by
  rw [completionProjection, if_pos ⟨he, hp⟩, if_pos ⟨hr, hp⟩]
  simp only [gt_iff_lt]
  set a : Int := ⌊max 0 ((elapsed : ℚ) * (100 / p) - (elapsed : ℚ) - (remaining : ℚ))⌋ with ha
  have hnonneg : 0 ≤ a := by
    rw [ha]
    exact_mod_cast Int.floor_nonneg.mpr (le_max_left 0 _)
  by_cases hpos : 0 < a
  · rw [if_pos hpos, if_pos hpos]
  · have hz : a = 0 := le_antisymm (not_lt.mp hpos) hnonneg
    rw [if_neg hpos, if_neg hpos, hz]
    rfl

/-- C4 witness: the report theorem applied with 20 days elapsed, 5 days
remaining, progress 50% and expected progress 80%: the projected total is 40
days, 15 days beyond the deadline. -/
theorem completionProjection_report_witness :
    completionProjection 20 5 50 80 = some (.beyond 15) := by
  have h := completionProjection_report 20 5 50 80 (by norm_num) (by norm_num) (by norm_num)
  rw [h]
  norm_num [max_def]

/-- The counting fold increments exactly the bucket selected by the per-task
classification predicates, leaving `total` untouched. -/
theorem foldl_countStep (ts : List NTask) (c : TaskCounts) :
    ts.foldl countStep c =
      { total := c.total
        completed := c.completed + (ts.filter isCompletedTask).length
        inProgress := c.inProgress + (ts.filter isInProgressTask).length
        todo := c.todo + (ts.filter isTodoTask).length } := by
  induction ts generalizing c with
  | nil => simp
  | cons t ts ih =>
    rw [List.foldl_cons, ih]
    rcases t with ⟨s, comp⟩
    rcases s with _ | v
    · rcases comp with _ | b
      · simp [countStep, isCompletedTask, isInProgressTask, isTodoTask,
          List.filter_cons, TaskCounts.mk.injEq]
        omega
      · cases b <;>
          simp [countStep, isCompletedTask, isInProgressTask, isTodoTask,
            List.filter_cons, TaskCounts.mk.injEq] <;>
          omega
    · by_cases hv1 : v = "completed"
      · simp [countStep, isCompletedTask, isInProgressTask, isTodoTask,
          List.filter_cons, hv1, TaskCounts.mk.injEq]
        omega
      · by_cases hv2 : v = "in_progress"
        · simp [countStep, isCompletedTask, isInProgressTask, isTodoTask,
            List.filter_cons, hv1, hv2, TaskCounts.mk.injEq]
          omega
        · simp [countStep, isCompletedTask, isInProgressTask, isTodoTask,
            List.filter_cons, hv1, hv2, TaskCounts.mk.injEq]
          omega

/-- C5: when the localStorage override list is present and non-empty the task
counts derive from it alone (the persisted task list has no influence, total is
its length, completed counts its truthy `completed` flags, in-progress is 0);
when it is absent or empty, counts classify each merged task into
completed / in-progress / todo from its `status` or `completed` field (todo by
default); and `progress_percentage = completed / total * 100`, which is 0 when
total is 0 and 100 when completed == total > 0. -/
theorem taskCounts_spec :
    (∀ (l : List LTask) (ts ts' : List NTask), l ≠ [] →
      (taskCounts (some l) ts = taskCounts (some l) ts' ∧
       (taskCounts (some l) ts).total = l.length ∧
       (taskCounts (some l) ts).completed = localCompletedCount l ∧
       (taskCounts (some l) ts).inProgress = 0)) ∧
    (∀ ts : List NTask,
      taskCounts none ts = classifyCounts ts ∧
      taskCounts (some []) ts = classifyCounts ts ∧
      (classifyCounts ts).total = ts.length ∧
      (classifyCounts ts).completed = (ts.filter isCompletedTask).length ∧
      (classifyCounts ts).inProgress = (ts.filter isInProgressTask).length ∧
      (classifyCounts ts).todo = (ts.filter isTodoTask).length) ∧
    (∀ c : TaskCounts, c.total = 0 → progressPercentage c = 0) ∧
    (∀ c : TaskCounts, 0 < c.total → c.completed = c.total → progressPercentage c = 100) := by
  refine ⟨?_, ?_, ?_, ?_⟩
  · intro l ts ts' hl
    have hpos : 0 < l.length := List.length_pos.mpr hl
    simp [taskCounts, hpos]
  · intro ts
    refine ⟨rfl, rfl, ?_, ?_, ?_, ?_⟩ <;>
      simp [classifyCounts, foldl_countStep]
  · intro c hc
    simp [progressPercentage, hc]
  · intro c hpos hc
    have hne : (c.total : ℚ) ≠ 0 := by
      exact_mod_cast Nat.pos_iff_ne_zero.mp hpos
    simp [progressPercentage, hpos, hc, div_self hne]

/-- C5 witness: a two-element override list (one completed) overrides a
one-element persisted list, and a 2-of-2 completed count gives 100%. -/
theorem taskCounts_spec_witness :
    (taskCounts (some [⟨some true⟩, ⟨none⟩]) [⟨some "in_progress", none⟩]).completed =
      localCompletedCount [⟨some true⟩, ⟨none⟩] ∧
    progressPercentage ⟨2, 2, 0, 0⟩ = 100 :=
  ⟨(taskCounts_spec.1 [⟨some true⟩, ⟨none⟩] [⟨some "in_progress", none⟩] []
      (by decide)).2.2.1,
   taskCounts_spec.2.2.2 ⟨2, 2, 0, 0⟩ (by decide) (by decide)⟩

/-- C8 counterexample: the text "complex advanced API simple" has 2 high
keywords, 1 medium keyword and 1 low keyword — the high count strictly exceeds
each other count individually, yet the classifier returns `"medium"`, because
its test is `high_count > medium_count + low_count` (sum), not a per-category
majority. -/
theorem classifyComplexity_majority_counterexample :
    keywordCount (combinedText "complex advanced API simple" "") highKeywords = 2 ∧
    keywordCount (combinedText "complex advanced API simple" "") mediumKeywords = 1 ∧
    keywordCount (combinedText "complex advanced API simple" "") lowKeywords = 1 ∧
    classifyComplexity "complex advanced API simple" "" = "medium" := by
  refine ⟨?_, ?_, ?_, ?_⟩ <;> decide

/-- C8 (amended): for every combined description-plus-problem text the
classifier returns `"high"` exactly when the high-keyword count exceeds the sum
of the other two counts, `"low"` exactly when the low count exceeds the sum of
the other two, and `"medium"` in every other case (ties and mere per-category
pluralities included). -/
theorem classifyComplexity_characterization (description problem : String) :
    (classifyComplexity description problem = "high" ↔
      keywordCount (combinedText description problem) mediumKeywords +
        keywordCount (combinedText description problem) lowKeywords <
        keywordCount (combinedText description problem) highKeywords) ∧
    (classifyComplexity description problem = "low" ↔
      (¬(keywordCount (combinedText description problem) mediumKeywords +
          keywordCount (combinedText description problem) lowKeywords <
          keywordCount (combinedText description problem) highKeywords) ∧
       keywordCount (combinedText description problem) highKeywords +
         keywordCount (combinedText description problem) mediumKeywords <
         keywordCount (combinedText description problem) lowKeywords)) ∧
    (classifyComplexity description problem = "medium" ↔
      (¬(keywordCount (combinedText description problem) mediumKeywords +
          keywordCount (combinedText description problem) lowKeywords <
          keywordCount (combinedText description problem) highKeywords) ∧
       ¬(keywordCount (combinedText description problem) highKeywords +
          keywordCount (combinedText description problem) mediumKeywords <
          keywordCount (combinedText description problem) lowKeywords))) := by
  set hi := keywordCount (combinedText description problem) highKeywords with hhi
  set med := keywordCount (combinedText description problem) mediumKeywords with hmed
  set lo := keywordCount (combinedText description problem) lowKeywords with hlo
  by_cases h1 : med + lo < hi
  · simp [classifyComplexity, ← hhi, ← hmed, ← hlo, h1]
  · by_cases h2 : hi + med < lo
    · simp [classifyComplexity, ← hhi, ← hmed, ← hlo, h1, h2]
    · simp [classifyComplexity, ← hhi, ← hmed, ← hlo, h1, h2]

/-- C9 counterexample: a payload changing only `status` (no `title` key) makes
`update_task` raise `KeyError: 'title'`, surfaced by the global error handler
as a 500 internal error — not the 400 missing-field validation response the
claim describes (the shape `create_task` uses). -/
theorem updateTask_missing_title_counterexample :
    updateTask ⟨none, none, some "completed", none, none, none, none, none, none⟩
        ⟨"old", "d", "todo", "medium", none, none, "p", 1, 2, 0⟩ 5 =
      .internalError "KeyError: 'title'" ∧
    UpdateResponse.internalError "KeyError: 'title'" ≠ missingTitleValidationResponse := by
  constructor
  · rfl
  · decide

/-- C9 (amended): a task-update payload without `title` fails — but with an
unhandled `KeyError` surfaced as a 500 internal error, not a missing-field
validation error; when `title` is present, exactly `title`, `updated_at` and
the payload-present fields are written and every absent field keeps its stored
value. -/
theorem updateTask_spec (data : TaskUpdatePayload) (t : TaskRecord) (now : Int) :
    (data.title = none → updateTask data t now = .internalError "KeyError: 'title'") ∧
    (∀ ti, data.title = some ti →
      ∃ t', updateTask data t now = .ok t' ∧
        t'.title = ti ∧ t'.updatedAt = now ∧
        (data.description = none → t'.description = t.description) ∧
        (∀ v, data.description = some v → t'.description = v) ∧
        (data.status = none → t'.status = t.status) ∧
        (∀ v, data.status = some v → t'.status = v) ∧
        (data.priority = none → t'.priority = t.priority) ∧
        (∀ v, data.priority = some v → t'.priority = v) ∧
        (data.assignedTo = none → t'.assignedTo = t.assignedTo) ∧
        (∀ v, data.assignedTo = some v → t'.assignedTo = v) ∧
        (data.deadline = none → t'.deadline = t.deadline) ∧
        (∀ v, data.deadline = some v → t'.deadline = v) ∧
        (data.phaseName = none → t'.phaseName = t.phaseName) ∧
        (∀ v, data.phaseName = some v → t'.phaseName = v) ∧
        (data.phaseOrder = none → t'.phaseOrder = t.phaseOrder) ∧
        (∀ v, data.phaseOrder = some v → t'.phaseOrder = v) ∧
        (data.taskOrder = none → t'.taskOrder = t.taskOrder) ∧
        (∀ v, data.taskOrder = some v → t'.taskOrder = v)) := by
  constructor
  · intro h
    simp [updateTask, h]
  · intro ti h
    refine ⟨{ title := ti
              updatedAt := now
              description := data.description.getD t.description
              status := data.status.getD t.status
              priority := data.priority.getD t.priority
              assignedTo := data.assignedTo.getD t.assignedTo
              deadline := data.deadline.getD t.deadline
              phaseName := data.phaseName.getD t.phaseName
              phaseOrder := data.phaseOrder.getD t.phaseOrder
              taskOrder := data.taskOrder.getD t.taskOrder }, ?_, rfl, rfl,
            fun hd => by simp [hd], fun v hv => by simp [hv],
            fun hd => by simp [hd], fun v hv => by simp [hv],
            fun hd => by simp [hd], fun v hv => by simp [hv],
            fun hd => by simp [hd], fun v hv => by simp [hv],
            fun hd => by simp [hd], fun v hv => by simp [hv],
            fun hd => by simp [hd], fun v hv => by simp [hv],
            fun hd => by simp [hd], fun v hv => by simp [hv],
            fun hd => by simp [hd], fun v hv => by simp [hv]⟩
    simp [updateTask, h]

/-- C9 witness: the spec theorem applied to an all-absent payload yields the
KeyError outcome on a concrete stored row. -/
theorem updateTask_spec_witness :
    updateTask ⟨none, none, none, none, none, none, none, none, none⟩
        ⟨"old", "d", "todo", "medium", none, none, "p", 1, 2, 0⟩ 5 =
      .internalError "KeyError: 'title'" :=
  (updateTask_spec ⟨none, none, none, none, none, none, none, none, none⟩
      ⟨"old", "d", "todo", "medium", none, none, "p", 1, 2, 0⟩ 5).1 rfl

/-- A member's image under `f` is a sublist of the `flatMap`. -/
theorem sublist_flatMap_of_mem {α β : Type} (f : α → List β) {l : List α} {p : α}
    (hp : p ∈ l) : List.Sublist (f p) (l.flatMap f) := by
  induction l with
  | nil => cases hp
  | cons q qs ih =>
    rcases List.mem_cons.mp hp with h | h
    · subst h
      exact List.sublist_append_left (f p) (qs.flatMap f)
    · exact (ih h).trans (List.sublist_append_right (f q) (qs.flatMap f))

theorem mem_tasks_foldl_cascade (l : List Int) (db : DB) (t : TaskRow) :
    t ∈ (l.foldl deleteProjectCascade db).tasks ↔ t ∈ db.tasks ∧ t.projectId ∉ l := by
  induction l generalizing db with
  | nil => simp
  | cons p ps ih =>
    rw [List.foldl_cons, ih]
    simp only [deleteProjectCascade, deleteProjectRow, deleteProjMembersOfProject,
      deleteTasksOfProject, List.mem_filter, bne_iff_ne, ne_eq, decide_eq_true_eq,
      List.mem_cons, not_or]
    tauto

theorem mem_projects_foldl_cascade (l : List Int) (db : DB) (pr : ProjectRow) :
    pr ∈ (l.foldl deleteProjectCascade db).projects ↔ pr ∈ db.projects ∧ pr.id ∉ l := by
  induction l generalizing db with
  | nil => simp
  | cons p ps ih =>
    rw [List.foldl_cons, ih]
    simp only [deleteProjectCascade, deleteProjectRow, deleteProjMembersOfProject,
      deleteTasksOfProject, List.mem_filter, bne_iff_ne, ne_eq, decide_eq_true_eq,
      List.mem_cons, not_or]
    tauto

theorem mem_projMembers_foldl_cascade (l : List Int) (db : DB) (m : ProjMemberRow) :
    m ∈ (l.foldl deleteProjectCascade db).projMembers ↔
      m ∈ db.projMembers ∧ m.projectId ∉ l := by
  induction l generalizing db with
  | nil => simp
  | cons p ps ih =>
    rw [List.foldl_cons, ih]
    simp only [deleteProjectCascade, deleteProjectRow, deleteProjMembersOfProject,
      deleteTasksOfProject, List.mem_filter, bne_iff_ne, ne_eq, decide_eq_true_eq,
      List.mem_cons, not_or]
    tauto

theorem orgMembers_foldl_cascade (l : List Int) (db : DB) :
    (l.foldl deleteProjectCascade db).orgMembers = db.orgMembers := by
  induction l generalizing db with
  | nil => rfl
  | cons p ps ih => rw [List.foldl_cons, ih]; rfl

theorem orgs_foldl_cascade (l : List Int) (db : DB) :
    (l.foldl deleteProjectCascade db).orgs = db.orgs := by
  induction l generalizing db with
  | nil => rfl
  | cons p ps ih => rw [List.foldl_cons, ih]; rfl

/-- C6: when an admin member deletes an organization, the resulting state
holds no project of the organization, no task or project-membership of any of
its projects, no organization-membership row, and not the organization row
itself; and the statement trace deletes children first: for every project of
the organization, its task- and membership-deletes precede its project-delete,
which precedes the organization-membership delete and the final
organization delete. -/
theorem deleteOrganization_cascades (db : DB) (orgId userId : Int)
    (h : isOrgAdmin db orgId userId = true) :
    ∃ db', deleteOrganization db orgId userId = some db' ∧
      (∀ pr ∈ db'.projects, pr.orgId ≠ orgId) ∧
      (∀ t ∈ db'.tasks, ∀ pr ∈ db.projects, pr.orgId = orgId → t.projectId ≠ pr.id) ∧
      (∀ m ∈ db'.projMembers, ∀ pr ∈ db.projects, pr.orgId = orgId → m.projectId ≠ pr.id) ∧
      (∀ m ∈ db'.orgMembers, m.orgId ≠ orgId) ∧
      orgId ∉ db'.orgs ∧
      (∀ p ∈ orgProjectIds db orgId,
        List.Sublist [DStmt.delTasks p, DStmt.delProjMembers p, DStmt.delProject p,
                      DStmt.delOrgMembers orgId, DStmt.delOrg orgId]
          (deleteOrgTrace db orgId)) := by
  have hsome : deleteOrganization db orgId userId =
      some (deleteOrgRow (deleteOrgMembersOfOrg
        ((orgProjectIds db orgId).foldl deleteProjectCascade db) orgId) orgId) := by
    rw [deleteOrganization, if_pos h]
  refine ⟨_, hsome, ?_, ?_, ?_, ?_, ?_, ?_⟩
  · intro pr hpr
    have hpr' : pr ∈ db.projects ∧ pr.id ∉ orgProjectIds db orgId := by
      rw [← mem_projects_foldl_cascade]
      simpa [deleteOrgRow, deleteOrgMembersOfOrg] using hpr
    intro hEq
    exact hpr'.2 (by
      simp only [orgProjectIds, List.mem_map, List.mem_filter]
      exact ⟨pr, ⟨hpr'.1, by simp [hEq]⟩, rfl⟩)
  · intro t ht pr hpr hOrg
    have ht' : t ∈ db.tasks ∧ t.projectId ∉ orgProjectIds db orgId := by
      rw [← mem_tasks_foldl_cascade]
      simpa [deleteOrgRow, deleteOrgMembersOfOrg] using ht
    intro hEq
    exact ht'.2 (by
      simp only [orgProjectIds, List.mem_map, List.mem_filter]
      exact ⟨pr, ⟨hpr, by simp [hOrg]⟩, hEq.symm⟩)
  · intro m hm pr hpr hOrg
    have hm' : m ∈ db.projMembers ∧ m.projectId ∉ orgProjectIds db orgId := by
      rw [← mem_projMembers_foldl_cascade]
      simpa [deleteOrgRow, deleteOrgMembersOfOrg] using hm
    intro hEq
    exact hm'.2 (by
      simp only [orgProjectIds, List.mem_map, List.mem_filter]
      exact ⟨pr, ⟨hpr, by simp [hOrg]⟩, hEq.symm⟩)
  · intro m hm
    have hm' : m ∈ ((orgProjectIds db orgId).foldl deleteProjectCascade db).orgMembers ∧
        m.orgId ≠ orgId := by
      simpa [deleteOrgRow, deleteOrgMembersOfOrg, List.mem_filter, bne_iff_ne] using hm
    exact hm'.2
  · intro hmem
    simp [deleteOrgRow, deleteOrgMembersOfOrg, List.mem_filter, bne_iff_ne] at hmem
  · intro p hp
    have h1 : List.Sublist [DStmt.delTasks p, DStmt.delProjMembers p, DStmt.delProject p]
        ((orgProjectIds db orgId).flatMap
          (fun q => [DStmt.delTasks q, DStmt.delProjMembers q, DStmt.delProject q])) :=
      sublist_flatMap_of_mem
        (fun q => [DStmt.delTasks q, DStmt.delProjMembers q, DStmt.delProject q]) hp
    have h2 := List.Sublist.append h1
      (List.Sublist.refl [DStmt.delOrgMembers orgId, DStmt.delOrg orgId])
    simpa [deleteOrgTrace] using h2

/-- C6 witness: the cascade theorem applied to the concrete database `dbC6`
with admin user 7 deleting organization 5. -/
theorem deleteOrganization_cascades_witness :
    ∃ db', deleteOrganization dbC6 5 7 = some db' ∧
      (∀ pr ∈ db'.projects, pr.orgId ≠ 5) ∧
      (∀ t ∈ db'.tasks, ∀ pr ∈ dbC6.projects, pr.orgId = 5 → t.projectId ≠ pr.id) ∧
      (∀ m ∈ db'.projMembers, ∀ pr ∈ dbC6.projects, pr.orgId = 5 → m.projectId ≠ pr.id) ∧
      (∀ m ∈ db'.orgMembers, m.orgId ≠ 5) ∧
      (5 : Int) ∉ db'.orgs ∧
      (∀ p ∈ orgProjectIds dbC6 5,
        List.Sublist [DStmt.delTasks p, DStmt.delProjMembers p, DStmt.delProject p,
                      DStmt.delOrgMembers 5, DStmt.delOrg 5]
          (deleteOrgTrace dbC6 5)) :=
  deleteOrganization_cascades dbC6 5 7 (by decide)

/-- C7 counterexample: running only the first two statements of the
account-deletion cascade for user 7 on `dbC7` — the committed state after a
failure before the third statement — leaves project 1's row present while all
its tasks are already durably deleted: the unit "project 1" is neither fully
removed nor untouched, so the cascade is not all-or-nothing per project. -/
theorem deleteAccount_partial_commit_counterexample :
    (runPrefix (deleteUserTrace dbC7 7) 2 dbC7).tasks = [] ∧
    (runPrefix (deleteUserTrace dbC7 7) 2 dbC7).projects = [⟨1, 5⟩] ∧
    dbC7.tasks = [⟨10, 1, none⟩] := by
  decide

/-- C7 (amended): because each `execute_query` call commits in its own
transaction, the account-deletion cascade is not atomic per logical unit:
whenever the deleted user solely manages some project `p` that still has a
task, the committed state reachable after the first two statements (the
`assigned_to` update and `DELETE FROM tasks WHERE project_id = p`) contains
the project row of `p` but none of its tasks — a partially deleted unit. -/
theorem deleteAccount_partial_commit (db : DB) (u p : Int) (rest : List Int)
    (hsolo : soloManagedProjects (applyUStmt db (.nullAssigned u)) u = p :: rest)
    (t : TaskRow) (ht : t ∈ db.tasks) (htp : t.projectId = p) :
    (∀ t' ∈ (runPrefix (deleteUserTrace db u) 2 db).tasks, t'.projectId ≠ p) ∧
    (∃ pr ∈ (runPrefix (deleteUserTrace db u) 2 db).projects, pr.id = p) ∧
    (∃ t0 ∈ db.tasks, t0.projectId = p) := by
  have htake : (deleteUserTrace db u).take 2 = [.nullAssigned u, .delTasks p] := by
    rw [deleteUserTrace]
    simp only [hsolo, List.flatMap_cons]
    rfl
  have hrun : runPrefix (deleteUserTrace db u) 2 db =
      deleteTasksOfProject (applyUStmt db (.nullAssigned u)) p := by
    rw [runPrefix, htake]
    rfl
  refine ⟨?_, ?_, ⟨t, ht, htp⟩⟩
  · intro t' ht'
    rw [hrun] at ht'
    have := List.mem_filter.mp ht'
    simpa [bne_iff_ne] using this.2
  · have hp : p ∈ soloManagedProjects (applyUStmt db (.nullAssigned u)) u := by
      rw [hsolo]; exact List.mem_cons_self p rest
    have : ∃ pr ∈ (applyUStmt db (.nullAssigned u)).projects, pr.id = p := by
      simpa [soloManagedProjects, List.mem_map, List.mem_filter] using
        (by
          obtain ⟨pr, hpr, hid⟩ := List.mem_map.mp hp
          exact ⟨pr, (List.mem_filter.mp hpr).1, hid⟩ :
            ∃ pr ∈ (applyUStmt db (.nullAssigned u)).projects, pr.id = p)
    obtain ⟨pr, hpr, hid⟩ := this
    refine ⟨pr, ?_, hid⟩
    rw [hrun]
    simpa [deleteTasksOfProject] using hpr

/-- C7 witness: the partial-commit theorem applied to `dbC7`, user 7,
project 1 and its task. -/
theorem deleteAccount_partial_commit_witness :
    (∀ t' ∈ (runPrefix (deleteUserTrace dbC7 7) 2 dbC7).tasks, t'.projectId ≠ 1) ∧
    (∃ pr ∈ (runPrefix (deleteUserTrace dbC7 7) 2 dbC7).projects, pr.id = 1) ∧
    (∃ t0 ∈ dbC7.tasks, t0.projectId = 1) :=
  deleteAccount_partial_commit dbC7 7 1 [] (by decide) ⟨10, 1, none⟩ (by decide) rfl

/-- C10: the three project-read operations depend neither on which
authenticated user calls them nor on any membership row: for any two callers
and any two pairs of membership tables (all other state equal), the responses
are identical — no membership or ownership check is performed. -/
theorem readHandlers_ignore_caller_and_membership (db : ReadDB)
    (om om' : List OrgMemberRow) (pm pm' : List ProjMemberRow)
    (u u' : Int) (orgId projectId : Int) (includeTasks : Bool) :
    getOrganizationProjects { db with orgMembers := om, projMembers := pm }
        orgId includeTasks u =
      getOrganizationProjects { db with orgMembers := om', projMembers := pm' }
        orgId includeTasks u' ∧
    getProject { db with orgMembers := om, projMembers := pm } projectId u =
      getProject { db with orgMembers := om', projMembers := pm' } projectId u' ∧
    getTasks { db with orgMembers := om, projMembers := pm } projectId u =
      getTasks { db with orgMembers := om', projMembers := pm' } projectId u' :=
  ⟨rfl, rfl, rfl⟩

end PMApp
